import Mathlib

/-!
# Verification of the `vtkAxisActor2D` axis-layout component

Shallow embedding of `src/Rendering/vtkAxisActor2D.h` (mcellteam/VTK).
The repository ships only the class header: inline member bodies
(`GetAdjustedRange` and friends, `RenderTranslucentGeometry {return 0;}`)
are embedded directly from the source, while the out-of-line bodies
(`ComputeRange`, `SetFontSize`, `SetMultipleFontSize`, `BuildAxis`,
`UpdateAdjustedRange`, the clamped setters produced by `vtkSetClampMacro`)
are modelled from the specification, as noted on each definition.

Machine floats are embedded as exact rationals (`ℚ`); device/pixel
coordinates as integers.  Floor/ceiling/round are expressed through the
executable `Rat.floor` so that every definition evaluates by kernel
reduction; bridge lemmas connect them to Mathlib's `⌊⌋`/`⌈⌉`/`round`.
-/

attribute [local semireducible] Rat.mul Rat.inv Rat.add Rat.sub Rat.ofScientific

namespace VtkAxisActor2D

/-! ## Executable numeric primitives -/

/-- Executable ceiling on `ℚ` via `Rat.floor`. -/
def rceil (q : ℚ) : ℤ := -(Rat.floor (-q))

/-- Executable round-half-up on `ℚ` via `Rat.floor`. -/
def rround (q : ℚ) : ℤ := Rat.floor (q + 1 / 2)

/-- Executable absolute value on `ℚ`. -/
def rabs (q : ℚ) : ℚ := if q < 0 then -q else q

/-- Clamp an integer to `[lo, hi]`, mirroring `vtkSetClampMacro`:
`value < min ? min : (value > max ? max : value)`. -/
def clampZ (lo hi v : ℤ) : ℤ := if v < lo then lo else if hi < v then hi else v

/-- Clamp a rational to `[lo, hi]`, mirroring `vtkSetClampMacro`. -/
def clampQ (lo hi v : ℚ) : ℚ := if v < lo then lo else if hi < v then hi else v

/-- Fuel-driven base-10 floor-logarithm on naturals: counts how many times
`n` can be divided by 10 before dropping below 10.  Structural in the fuel
so the kernel can evaluate it. -/
def log10fuel : ℕ → ℕ → ℕ
  | 0, _ => 0
  | f + 1, n => if n < 10 then 0 else log10fuel f (n / 10) + 1

/-- Floor of `log₁₀ n` for `n ≥ 1` (junk value `0` at `n = 0`). -/
def log10N (n : ℕ) : ℕ := log10fuel n n

/-- Ceiling of `log₁₀ m` for `m ≥ 1`: smallest `k` with `m ≤ 10^k` (junk `0` for `m ≤ 1`). -/
def clog10N (m : ℕ) : ℕ := if m ≤ 1 then 0 else log10N (m - 1) + 1

/-- Floor of `log₁₀ q` for a positive rational (junk value for `q ≤ 0`): the
power-of-ten magnitude used by the nice-interval selection. -/
def log10floor (q : ℚ) : ℤ :=
  if 1 ≤ q then (log10N (Rat.floor q).toNat : ℤ) else -(clog10N (rceil q⁻¹).toNat : ℤ)

/-- Executable `10 ^ m : ℚ` for an integer exponent `m`. -/
def pow10 (m : ℤ) : ℚ :=
  if 0 ≤ m then ((10 ^ m.toNat : ℕ) : ℚ) else (((10 ^ (-m).toNat : ℕ) : ℚ))⁻¹

/-! ## RangeAdjuster (`ComputeRange`) -/

/-- Modelled from the spec (§4.1): the "nice" interval.  The implementation
of `ComputeRange` is absent from `src/` (only declared at
`vtkAxisActor2D.h:253`).  The spec selects, at the power-of-ten magnitude of
the raw interval `span / (n - 1)`, a per-decade candidate from the ordered
set `{1, 2, 5, 10}`: the first (smallest) candidate interval `I` whose
resulting integer tick count `⌊span / I⌋ + 1` stays within the requested
count — equivalently "scaled value ≥ raw interval" up to the integer
truncation of the tick count, the reading forced by the worked example
documented both in the spec (§4.1) and in the source header
(`vtkAxisActor2D.h:249-252`): input `(0.25, 96.7)` with 10 requested ticks
yields interval `10` (not `20`).  Falls back to the largest candidate. -/
def niceInterval (span : ℚ) (n : ℤ) : ℚ :=
  let raw := span / ((n : ℚ) - 1)
  let p : ℚ := pow10 (log10floor raw)
  if Rat.floor (span / p) + 1 ≤ n then p
  else if Rat.floor (span / (2 * p)) + 1 ≤ n then 2 * p
  else if Rat.floor (span / (5 * p)) + 1 ≤ n then 5 * p
  else 10 * p

/-- Modelled from the spec (§4.1): the effective span.  Degenerate case
`inMin == inMax`: substitute a minimal nonzero span based on the magnitude
of the value itself, or a fixed epsilon (here `1`) if the value is zero. -/
def crSpan (r : ℚ × ℚ) : ℚ :=
  if r.2 - r.1 = 0 then (if r.1 = 0 then 1 else rabs r.1) else r.2 - r.1

/-- The selected nice interval for an input range and requested tick count. -/
def crInterval (r : ℚ × ℚ) (n : ℤ) : ℚ := niceInterval (crSpan r) n

/-- Expanded lower bound: `floor(inMin / interval) * interval`. -/
def crOutMin (r : ℚ × ℚ) (n : ℤ) : ℚ :=
  (Rat.floor (r.1 / crInterval r n) : ℚ) * crInterval r n

/-- Expanded upper bound: `ceil(inMax / interval) * interval` (with the
degenerate-range substitution applied to `inMax`). -/
def crOutMax (r : ℚ × ℚ) (n : ℤ) : ℚ :=
  (rceil ((r.1 + crSpan r) / crInterval r n) : ℚ) * crInterval r n

/-- Recomputed tick count `round((outMax - outMin) / interval) + 1`. -/
def crTicks0 (r : ℚ × ℚ) (n : ℤ) : ℤ :=
  rround ((crOutMax r n - crOutMin r n) / crInterval r n) + 1

/-- The tick count re-clamped to `[2, 25]` (`VTK_MAX_LABELS = 25`,
`vtkAxisActor2D.h:63`). -/
def crTicks (r : ℚ × ℚ) (n : ℤ) : ℤ := clampZ 2 25 (crTicks0 r n)

/-- Modelled from the spec (§4.1, §8): `ComputeRange` — body absent from
`src/`, declared at `vtkAxisActor2D.h:253-257`.  Maps an input range and a
requested tick count to `((outMin, outMax), outTicks, interval)`.  If the
`[2,25]` clamp changes the tick count, the interval is recomputed from the
clamped count over the already-expanded range, keeping the invariant
`interval * (outTicks - 1) = outMax - outMin` and the containment of the
input range. -/
def ComputeRange (r : ℚ × ℚ) (n : ℤ) : (ℚ × ℚ) × ℤ × ℚ :=
  ((crOutMin r n, crOutMax r n), crTicks r n,
    if crTicks r n = crTicks0 r n then crInterval r n
    else (crOutMax r n - crOutMin r n) / ((crTicks r n : ℚ) - 1))

/-! ## Bridge lemmas -/

theorem ratFloor_eq (q : ℚ) : Rat.floor q = ⌊q⌋ := by
  rw [Rat.floor_def', Rat.floor_def]

theorem rceil_eq (q : ℚ) : rceil q = ⌈q⌉ := by
  rw [rceil, ratFloor_eq, Int.floor_neg, neg_neg]

theorem rround_eq (q : ℚ) : rround q = round q := by
  rw [rround, ratFloor_eq, round_eq]

theorem rabs_eq (q : ℚ) : rabs q = |q| := by
  rw [rabs]
  split_ifs with h
  · exact (abs_of_neg h).symm
  · exact (abs_of_nonneg (not_lt.1 h)).symm

theorem pow10_pos (m : ℤ) : 0 < pow10 m := by
  rw [pow10]
  split_ifs
  · positivity
  · positivity

/-! ## FontFitter (`SetFontSize`, `SetMultipleFontSize`)

The text-measurement collaborator (`vtkTextMapper::GetSize`) is embedded as
a function `measure : ℕ → ℕ × ℕ` from a font size in points to the measured
string `(width, height)` in pixels; a target box is an `ℕ × ℕ` pixel pair
(`int targetSize[2]` in the header). -/

/-- The spec's monotonicity assumption on the text measurer (§6): larger
font size never decreases measured width or height. -/
def MonotoneMeasure (measure : ℕ → ℕ × ℕ) : Prop :=
  ∀ s t : ℕ, s ≤ t → (measure s).1 ≤ (measure t).1 ∧ (measure s).2 ≤ (measure t).2

/-- The fitting predicate (§4.2): the measured box at size `s` does not
exceed the factor-scaled target box in either dimension. -/
def FitsBox (measure : ℕ → ℕ × ℕ) (target : ℕ × ℕ) (factor : ℚ) (s : ℕ) : Prop :=
  ((measure s).1 : ℚ) ≤ factor * target.1 ∧ ((measure s).2 : ℚ) ≤ factor * target.2

instance (measure : ℕ → ℕ × ℕ) (target : ℕ × ℕ) (factor : ℚ) (s : ℕ) :
    Decidable (FitsBox measure target factor s) :=
  inferInstanceAs (Decidable (_ ∧ _))

/-- Modelled from the spec (§4.2): the legibility floor of the font-size
search domain (a minimum floor `≥ 1`; policy constant). -/
def minFontSize : ℕ := 1

/-- Modelled from the spec (§4.2): the practical ceiling of the font-size
search domain (policy constant). -/
def maxFontSize : ℕ := 100

/-- The largest size in `[minFontSize, maxFontSize]` satisfying `P`, or the
floor `minFontSize` if none does (the outcome of the spec's monotone binary
search, expressed as a greatest-witness search). -/
def fontSearch (P : ℕ → Prop) [DecidablePred P] : ℕ :=
  max minFontSize (Nat.findGreatest (fun s => minFontSize ≤ s ∧ P s) maxFontSize)

/-- Modelled from the spec (§4.2): `SetFontSize` — body absent from `src/`,
declared at `vtkAxisActor2D.h:266-270`.  Searches for the largest font size
whose measured box fits the factor-scaled target box; if even the floor size
overflows, returns the floor and accepts overflow (no failure signal).
Returns the chosen size and the measured string size at it (the C++
`stringSize` out-parameter). -/
def SetFontSize (measure : ℕ → ℕ × ℕ) (targetSize : ℕ × ℕ) (factor : ℚ) :
    ℕ × (ℕ × ℕ) :=
  let s := fontSearch (FitsBox measure targetSize factor)
  (s, measure s)

/-- Everybody-fits predicate for the batch variant (§4.2): at size `s`,
every (measurer, target-box) pair fits its own factor-scaled box. -/
def FitsAll (items : List ((ℕ → ℕ × ℕ) × (ℕ × ℕ))) (factor : ℚ) (s : ℕ) : Prop :=
  ∀ it ∈ items, FitsBox it.1 it.2 factor s

instance (items : List ((ℕ → ℕ × ℕ) × (ℕ × ℕ))) (factor : ℚ) (s : ℕ) :
    Decidable (FitsAll items factor s) :=
  inferInstanceAs (Decidable (∀ _ ∈ _, _))

/-- Modelled from the spec (§4.2): `SetMultipleFontSize` — body absent from
`src/`, declared at `vtkAxisActor2D.h:271-276`.  Runs the same search with
"does every string fit" as the predicate, so all strings share one size;
returns that size and the per-string measured sizes at it. -/
def SetMultipleFontSize (items : List ((ℕ → ℕ × ℕ) × (ℕ × ℕ))) (factor : ℚ) :
    ℕ × List (ℕ × ℕ) :=
  let s := fontSearch (FitsAll items factor)
  (s, items.map fun it => it.1 s)

/-! ## Configuration state and clamped setters

The instance variables of `vtkAxisActor2D` (header lines 286-308).
`Point1`/`Point2` are viewport-logical coordinates, `Range` the `(min,max)`
float pair, and the remaining fields mirror the header's ivars. -/

structure AxisConfig where
  Point1 : ℚ × ℚ
  Point2 : ℚ × ℚ
  Range : ℚ × ℚ
  NumberOfLabels : ℤ
  LabelFormat : String
  AdjustLabels : Bool
  FontFactor : ℚ
  LabelFactor : ℚ
  TickLength : ℤ
  TickOffset : ℤ
  AxisVisibility : Bool
  TickVisibility : Bool
  LabelVisibility : Bool
  TitleVisibility : Bool
  Title : String
deriving DecidableEq

/-- Modelled from the spec (§6, §7): `vtkSetClampMacro(NumberOfLabels, int,
2, VTK_MAX_LABELS)` at `vtkAxisActor2D.h:93` — the macro body lives in
`vtkSetGet.h`, outside `src/`; the spec states that every such setter clamps
silently to its documented bound. -/
def SetNumberOfLabels (c : AxisConfig) (v : ℤ) : AxisConfig :=
  { c with NumberOfLabels := clampZ 2 25 v }

/-- Modelled from the spec (§6, §7): `vtkSetClampMacro(TickLength, int, 0,
100)` at `vtkAxisActor2D.h:185`. -/
def SetTickLength (c : AxisConfig) (v : ℤ) : AxisConfig :=
  { c with TickLength := clampZ 0 100 v }

/-- Modelled from the spec (§6, §7): `vtkSetClampMacro(TickOffset, int, 0,
100)` at `vtkAxisActor2D.h:192`. -/
def SetTickOffset (c : AxisConfig) (v : ℤ) : AxisConfig :=
  { c with TickOffset := clampZ 0 100 v }

/-- Modelled from the spec (§6, §7): `vtkSetClampMacro(FontFactor, float,
0.1, 2.0)` at `vtkAxisActor2D.h:223`. -/
def SetFontFactor (c : AxisConfig) (v : ℚ) : AxisConfig :=
  { c with FontFactor := clampQ (1 / 10) 2 v }

/-- Modelled from the spec (§6, §7): `vtkSetClampMacro(LabelFactor, float,
0.1, 2.0)` at `vtkAxisActor2D.h:229`. -/
def SetLabelFactor (c : AxisConfig) (v : ℚ) : AxisConfig :=
  { c with LabelFactor := clampQ (1 / 10) 2 v }

/-- Modelled from the spec (§6): `vtkSetStringMacro(Title)` at
`vtkAxisActor2D.h:134` (no clamping; stores the string). -/
def SetTitle (c : AxisConfig) (v : String) : AxisConfig :=
  { c with Title := v }

/-! ## AxisLayoutBuilder (`BuildAxis`) and the dirty-state cache -/

/-- The layout emitted by a rebuild (spec §3, `LayoutResult`): tick line
segments, label records `(value, anchor, fontSize)`, an optional title
record and an optional axis line, all in device coordinates. -/
structure LayoutResult where
  ticks : List ((ℚ × ℚ) × (ℚ × ℚ))
  labels : List (ℚ × (ℚ × ℚ) × ℕ)
  title : Option (String × (ℚ × ℚ) × ℕ)
  axisLine : Option ((ℚ × ℚ) × (ℚ × ℚ))
deriving DecidableEq

/-- The dirty-state cache (spec §3, `BuildCache`; header ivars `LastPoint1`,
`LastPoint2`, `LastSize` at `vtkAxisActor2D.h:310-313`, plus the
content-modification comparison performed through `BuildTime`): last
resolved anchor points, last viewport pixel size, the content snapshot, and
the layout produced for them. -/
structure BuildCache where
  lastPoint1 : ℤ × ℤ
  lastPoint2 : ℤ × ℤ
  lastSize : ℤ × ℤ
  content : AxisConfig
  layout : LayoutResult
deriving DecidableEq

/-- The viewport collaborator (spec §6): logical-to-device transform,
current pixel size, and the text measurer (string and font size to measured
pixel box). -/
structure Viewport where
  toDevice : ℚ × ℚ → ℤ × ℤ
  size : ℤ × ℤ
  measure : String → ℕ → ℕ × ℕ

/-- The adjusted range and tick count used by a build (spec §4.3 step 4):
`ComputeRange` when `AdjustLabels` is set, else the raw range and the raw
label count still clamped to `[2,25]`. -/
def adjustedOf (c : AxisConfig) : (ℚ × ℚ) × ℤ :=
  if c.AdjustLabels then
    ((ComputeRange c.Range c.NumberOfLabels).1, (ComputeRange c.Range c.NumberOfLabels).2.1)
  else (c.Range, clampZ 2 25 c.NumberOfLabels)

/-- The text of the `i`-th label: the format string applied to the value
interpolated across the adjusted range (spec §4.3 step 5; the printf
rendering itself is external, represented by pairing the format with the
value's decimal form). -/
def labelText (fmt : String) (v : ℚ) : String := fmt ++ toString v

/-- Modelled from the spec (§4.3 steps 3-8): the pure layout computation of
`BuildAxis` — body absent from `src/`, declared at `vtkAxisActor2D.h:317`.
Tick base points are interpolated at `i/(ticks-1)` between the resolved
anchor points; tick marks and label anchors extend from them along the
perpendicular `(dy, -dx)` (the "right" side travelling from Point1 to
Point2), scaled by `TickLength` and `TickLength + TickOffset` respectively
relative to the axis extent (the Euclidean normalization of the
perpendicular, an irrational positive scalar, is represented by the
rational surrogate `|dx| + |dy|`, which affects no claim settled here);
label and title font sizes come from the batch and single font fitters,
scaled by `FontFactor` and `LabelFactor`, against per-slot and full-length
target boxes.  Visibility flags gate each part (header lines 197-217). -/
def layoutOf (c : AxisConfig) (p1 p2 : ℤ × ℤ) (size : ℤ × ℤ)
    (measure : String → ℕ → ℕ × ℕ) : LayoutResult :=
  let a := adjustedOf c
  let n := a.2
  let dx : ℚ := (p2.1 : ℚ) - (p1.1 : ℚ)
  let dy : ℚ := (p2.2 : ℚ) - (p1.2 : ℚ)
  let len : ℚ := rabs dx + rabs dy
  let base : ℤ → ℚ × ℚ := fun i =>
    ((p1.1 : ℚ) + ((i : ℚ) / ((n : ℚ) - 1)) * dx,
     (p1.2 : ℚ) + ((i : ℚ) / ((n : ℚ) - 1)) * dy)
  let perpAt : ℚ → ℚ × ℚ := fun d => (dy * d / len, -dx * d / len)
  let value : ℤ → ℚ := fun i => a.1.1 + ((i : ℚ) / ((n : ℚ) - 1)) * (a.1.2 - a.1.1)
  let idx := (List.range n.toNat).map (Int.ofNat)
  let slot : ℕ := (Rat.floor (len / (n : ℚ))).toNat
  let labelBox : ℕ × ℕ := (slot, (Rat.floor ((size.2 : ℚ) / 10)).toNat)
  let titleBox : ℕ × ℕ := ((Rat.floor len).toNat, (Rat.floor ((size.2 : ℚ) / 10)).toNat)
  let labelSize :=
    (SetMultipleFontSize
      (idx.map fun i => (measure (labelText c.LabelFormat (value i)), labelBox))
      (c.FontFactor * c.LabelFactor)).1
  let titleSize := (SetFontSize (measure c.Title) titleBox c.FontFactor).1
  { ticks :=
      if c.TickVisibility then
        idx.map fun i =>
          (base i,
           (((base i).1 + (perpAt (c.TickLength : ℚ)).1,
             (base i).2 + (perpAt (c.TickLength : ℚ)).2)))
      else []
    labels :=
      if c.LabelVisibility then
        idx.map fun i =>
          (value i,
           ((base i).1 + (perpAt ((c.TickLength : ℚ) + (c.TickOffset : ℚ))).1,
            (base i).2 + (perpAt ((c.TickLength : ℚ) + (c.TickOffset : ℚ))).2),
           labelSize)
      else []
    title :=
      if c.TitleVisibility then
        some (c.Title,
          (((p1.1 : ℚ) + (p2.1 : ℚ)) / 2 + (perpAt ((c.TickLength : ℚ) + (c.TickOffset : ℚ))).1,
           ((p1.2 : ℚ) + (p2.2 : ℚ)) / 2 + (perpAt ((c.TickLength : ℚ) + (c.TickOffset : ℚ))).2),
          titleSize)
      else none
    axisLine :=
      if c.AxisVisibility then
        some (((p1.1 : ℚ), (p1.2 : ℚ)), ((p2.1 : ℚ), (p2.2 : ℚ)))
      else none }

/-- Modelled from the spec (§4.3 steps 1-2, 9): `BuildAxis` — body absent
from `src/`, declared at `vtkAxisActor2D.h:317`; the staleness decision
combines the header's `LastPoint1`/`LastPoint2`/`LastSize` cache with the
`BuildTime` content-modification check (header lines 310-317, 333-334).
Resolves the anchor points, returns the cached layout unchanged on a full
match (without re-entering the layout computation, hence without invoking
`ComputeRange` or the font fitters), otherwise computes a fresh layout and
stores it with its inputs as the new cache baseline.  The returned flag is
`true` exactly when the fresh path ran. -/
def BuildAxis (c : AxisConfig) (cache : Option BuildCache) (v : Viewport) :
    LayoutResult × Option BuildCache × Bool :=
  let p1 := v.toDevice c.Point1
  let p2 := v.toDevice c.Point2
  match cache with
  | some b =>
    if b.lastPoint1 = p1 ∧ b.lastPoint2 = p2 ∧ b.lastSize = v.size ∧ b.content = c then
      (b.layout, some b, false)
    else
      let L := layoutOf c p1 p2 v.size v.measure
      (L, some ⟨p1, p2, v.size, c, L⟩, true)
  | none =>
    let L := layoutOf c p1 p2 v.size v.measure
    (L, some ⟨p1, p2, v.size, c, L⟩, true)

/-- From the source (`vtkAxisActor2D.h:236`, inline body `{return 0;}`):
the axis actor contributes no translucent geometry; the call reads nothing
and mutates nothing. -/
def RenderTranslucentGeometry (c : AxisConfig) (cache : Option BuildCache)
    (_ : Viewport) : ℤ × AxisConfig × Option BuildCache :=
  (0, c, cache)

/-! ## Adjusted-range state (`UpdateAdjustedRange` and its accessors)

The slice of the actor's state the adjusted-range machinery reads and
writes: the inputs `Range`, `NumberOfLabels`, `AdjustLabels`, the cached
outputs `AdjustedRange`, `AdjustedNumberOfLabels` (header lines 293-299),
and the timestamp pair `MTime` / `AdjustedRangeBuildTime` (header line 333),
embedded as generation counters per the spec's timestamp model (§9). -/

structure AdjustState where
  Range : ℚ × ℚ
  NumberOfLabels : ℤ
  AdjustLabels : Bool
  AdjustedRange : ℚ × ℚ
  AdjustedNumberOfLabels : ℤ
  MTime : ℕ
  AdjustedRangeBuildTime : ℕ
deriving DecidableEq

/-- The adjusted values determined by the current settings: `ComputeRange`
output when `AdjustLabels` is set, else the raw range and label count
(spec §3, `AdjustedRange`). -/
def adjustedValuesOf (s : AdjustState) : (ℚ × ℚ) × ℤ :=
  if s.AdjustLabels then
    ((ComputeRange s.Range s.NumberOfLabels).1,
     (ComputeRange s.Range s.NumberOfLabels).2.1)
  else (s.Range, s.NumberOfLabels)

/-- Modelled from the spec (§3, §9): `UpdateAdjustedRange` — body absent
from `src/`, declared at `vtkAxisActor2D.h:321`.  If the cached adjusted
values are stale (a modification happened after they were built), recompute
them from the current `Range`, `NumberOfLabels` and `AdjustLabels` and
record the build time; otherwise leave the state untouched. -/
def UpdateAdjustedRange (s : AdjustState) : AdjustState :=
  if s.AdjustedRangeBuildTime < s.MTime then
    { s with
      AdjustedRange := (adjustedValuesOf s).1
      AdjustedNumberOfLabels := (adjustedValuesOf s).2
      AdjustedRangeBuildTime := s.MTime }
  else s

/-- From the source (`vtkAxisActor2D.h:111-115`): `GetAdjustedRange()` calls
`UpdateAdjustedRange` then returns the `AdjustedRange` field (paired with
the post-call state, since the C++ method mutates the object). -/
def GetAdjustedRange (s : AdjustState) : (ℚ × ℚ) × AdjustState :=
  let s2 := UpdateAdjustedRange s
  (s2.AdjustedRange, s2)

/-- From the source (`vtkAxisActor2D.h:116-121`): the
`GetAdjustedRange(float&, float&)` overload calls `UpdateAdjustedRange`
then writes the two components of `AdjustedRange`. -/
def GetAdjustedRangeRefs (s : AdjustState) : (ℚ × ℚ) × AdjustState :=
  let s2 := UpdateAdjustedRange s
  ((s2.AdjustedRange.1, s2.AdjustedRange.2), s2)

/-- From the source (`vtkAxisActor2D.h:122-125`): the
`GetAdjustedRange(float[2])` overload delegates to the two-reference
overload. -/
def GetAdjustedRangeArray (s : AdjustState) : (ℚ × ℚ) × AdjustState :=
  GetAdjustedRangeRefs s

/-- From the source (`vtkAxisActor2D.h:126-130`): `GetAdjustedNumberOfLabels`
calls `UpdateAdjustedRange` then returns the `AdjustedNumberOfLabels`
field. -/
def GetAdjustedNumberOfLabels (s : AdjustState) : ℤ × AdjustState :=
  let s2 := UpdateAdjustedRange s
  (s2.AdjustedNumberOfLabels, s2)

/-- Reachable-state invariant tying the timestamp pair to the cached
values: the build time never runs ahead of the modification time, and when
the two coincide (cache considered valid) the cached adjusted values agree
with the current settings.  Holds after any `UpdateAdjustedRange` and is
preserved by the modifying setters, which bump `MTime`. -/
def AdjustWellFormed (s : AdjustState) : Prop :=
  s.AdjustedRangeBuildTime ≤ s.MTime ∧
    (s.AdjustedRangeBuildTime = s.MTime →
      s.AdjustedRange = (adjustedValuesOf s).1 ∧
      s.AdjustedNumberOfLabels = (adjustedValuesOf s).2)

instance (s : AdjustState) : Decidable (AdjustWellFormed s) :=
  inferInstanceAs (Decidable (_ ∧ _))

/-! ## Helper lemmas -/

theorem clampZ_lower {lo hi : ℤ} (v : ℤ) (h : lo ≤ hi) : lo ≤ clampZ lo hi v := by
  rw [clampZ]; split_ifs <;> omega

theorem clampZ_upper {lo hi : ℤ} (v : ℤ) (h : lo ≤ hi) : clampZ lo hi v ≤ hi := by
  rw [clampZ]; split_ifs <;> omega

theorem clampQ_lower {lo hi : ℚ} (v : ℚ) (h : lo ≤ hi) : lo ≤ clampQ lo hi v := by
  rw [clampQ]; split_ifs <;> linarith

theorem clampQ_upper {lo hi : ℚ} (v : ℚ) (h : lo ≤ hi) : clampQ lo hi v ≤ hi := by
  rw [clampQ]; split_ifs <;> linarith

theorem crInterval_pos (r : ℚ × ℚ) (n : ℤ) : 0 < crInterval r n := by
  rw [crInterval, niceInterval]
  have hp := pow10_pos (log10floor (crSpan r / ((n : ℚ) - 1)))
  split_ifs <;> linarith

theorem crSpan_nonneg {r : ℚ × ℚ} (h : r.1 ≤ r.2) : 0 ≤ crSpan r := by
  rw [crSpan]
  split_ifs with h0 h1
  · norm_num
  · rw [rabs_eq]; exact abs_nonneg _
  · linarith

theorem crOutMin_le (r : ℚ × ℚ) (n : ℤ) : crOutMin r n ≤ r.1 := by
  have hI := crInterval_pos r n
  have h1 : ((Rat.floor (r.1 / crInterval r n) : ℤ) : ℚ) ≤ r.1 / crInterval r n := by
    rw [ratFloor_eq]; exact Int.floor_le _
  have h2 := mul_le_mul_of_nonneg_right h1 hI.le
  rwa [div_mul_cancel₀ _ hI.ne', crOutMin] at *

theorem le_crOutMax (r : ℚ × ℚ) (n : ℤ) : r.1 + crSpan r ≤ crOutMax r n := by
  have hI := crInterval_pos r n
  have h1 : (r.1 + crSpan r) / crInterval r n ≤
      ((rceil ((r.1 + crSpan r) / crInterval r n) : ℤ) : ℚ) := by
    rw [rceil_eq]; exact Int.le_ceil _
  have h2 := mul_le_mul_of_nonneg_right h1 hI.le
  rwa [div_mul_cancel₀ _ hI.ne', crOutMax] at *

theorem crOut_sub (r : ℚ × ℚ) (n : ℤ) :
    crOutMax r n - crOutMin r n =
      ((rceil ((r.1 + crSpan r) / crInterval r n) -
        Rat.floor (r.1 / crInterval r n) : ℤ) : ℚ) * crInterval r n := by
  rw [crOutMax, crOutMin]; push_cast; ring

theorem crTicks0_eq (r : ℚ × ℚ) (n : ℤ) :
    crTicks0 r n =
      (rceil ((r.1 + crSpan r) / crInterval r n) -
        Rat.floor (r.1 / crInterval r n)) + 1 := by
  have hI := crInterval_pos r n
  rw [crTicks0, crOut_sub, mul_div_cancel_right₀ _ hI.ne', rround_eq, round_intCast]

theorem crTicks_lower (r : ℚ × ℚ) (n : ℤ) : 2 ≤ crTicks r n :=
  clampZ_lower _ (by norm_num)

theorem crTicks_upper (r : ℚ × ℚ) (n : ℤ) : crTicks r n ≤ 25 :=
  clampZ_upper _ (by norm_num)

theorem computeRange_interval_mul (r : ℚ × ℚ) (n : ℤ) :
    (ComputeRange r n).2.2 * (((ComputeRange r n).2.1 : ℚ) - 1) =
      crOutMax r n - crOutMin r n := by
  rw [ComputeRange]
  by_cases h : crTicks r n = crTicks0 r n
  · rw [if_pos h]
    have : (((crTicks r n : ℤ) : ℚ)) - 1 =
        ((rceil ((r.1 + crSpan r) / crInterval r n) -
          Rat.floor (r.1 / crInterval r n) : ℤ) : ℚ) := by
      rw [h, crTicks0_eq]; push_cast; ring
    rw [this, crOut_sub]; ring
  · rw [if_neg h]
    have h2 := crTicks_lower r n
    have hne : ((crTicks r n : ℚ)) - 1 ≠ 0 := by
      have : (2 : ℚ) ≤ (crTicks r n : ℚ) := by exact_mod_cast h2
      intro hc; rw [sub_eq_zero] at hc; rw [hc] at this; norm_num at this
    field_simp

theorem crOutSpan_nonneg {r : ℚ × ℚ} (n : ℤ) (h : r.1 ≤ r.2) :
    0 ≤ crOutMax r n - crOutMin r n := by
  have h1 := crOutMin_le r n
  have h2 := le_crOutMax r n
  have h3 := crSpan_nonneg h
  linarith

/-! ## Claim theorems -/

/-- Claim C1: for every valid input range and every requested tick count in
`[2,25]`, `ComputeRange` returns an output range containing the input range,
an output tick count in `[2,25]`, and an interval whose product with
`outTicks - 1` equals the output span within `1e-6` relative tolerance
(here: exactly, hence within tolerance). -/
theorem computeRange_contract (r : ℚ × ℚ) (n : ℤ) (h1 : r.1 ≤ r.2)
    (h2 : 2 ≤ n) (h3 : n ≤ 25) :
    (ComputeRange r n).1.1 ≤ r.1 ∧ r.2 ≤ (ComputeRange r n).1.2 ∧
    2 ≤ (ComputeRange r n).2.1 ∧ (ComputeRange r n).2.1 ≤ 25 ∧
    |(ComputeRange r n).2.2 * (((ComputeRange r n).2.1 : ℚ) - 1) -
        ((ComputeRange r n).1.2 - (ComputeRange r n).1.1)| ≤
      (1 / 1000000) * ((ComputeRange r n).1.2 - (ComputeRange r n).1.1) := by
  refine ⟨crOutMin_le r n, ?_, crTicks_lower r n, crTicks_upper r n, ?_⟩
  · have hb : r.2 ≤ r.1 + crSpan r := by
      rw [crSpan]
      split_ifs with h0 hz
      · linarith [show r.2 - r.1 = 0 from h0]
      · have : 0 ≤ rabs r.1 := by rw [rabs_eq]; exact abs_nonneg _
        have : r.2 = r.1 := by linarith [show r.2 - r.1 = 0 from h0]
        linarith
      · linarith
    exact hb.trans (le_crOutMax r n)
  · have hmul := computeRange_interval_mul r n
    have hspan := crOutSpan_nonneg n h1
    rw [show (ComputeRange r n).1.2 = crOutMax r n from rfl,
        show (ComputeRange r n).1.1 = crOutMin r n from rfl, hmul, sub_self, abs_zero]
    positivity

/-- Witness for C1 at the header's documented example input. -/
theorem computeRange_contract_witness :
    ((1 : ℚ) / 4 ≤ 967 / 10 ∧ (2 : ℤ) ≤ 10 ∧ (10 : ℤ) ≤ 25) ∧
    ((ComputeRange ((1 : ℚ) / 4, 967 / 10) 10).1.1 ≤ 1 / 4 ∧
      (967 : ℚ) / 10 ≤ (ComputeRange ((1 : ℚ) / 4, 967 / 10) 10).1.2 ∧
      2 ≤ (ComputeRange ((1 : ℚ) / 4, 967 / 10) 10).2.1 ∧
      (ComputeRange ((1 : ℚ) / 4, 967 / 10) 10).2.1 ≤ 25 ∧
      |(ComputeRange ((1 : ℚ) / 4, 967 / 10) 10).2.2 *
          (((ComputeRange ((1 : ℚ) / 4, 967 / 10) 10).2.1 : ℚ) - 1) -
          ((ComputeRange ((1 : ℚ) / 4, 967 / 10) 10).1.2 -
            (ComputeRange ((1 : ℚ) / 4, 967 / 10) 10).1.1)| ≤
        (1 / 1000000) *
          ((ComputeRange ((1 : ℚ) / 4, 967 / 10) 10).1.2 -
            (ComputeRange ((1 : ℚ) / 4, 967 / 10) 10).1.1)) :=
  ⟨⟨by decide, by decide, by decide⟩,
    computeRange_contract ((1 : ℚ) / 4, 967 / 10) 10 (by decide) (by decide) (by decide)⟩

/-- Claim C2: `ComputeRange` on input range `(0.25, 96.7)` with 10 requested
ticks returns output range `(0, 100)`, 11 ticks and interval 10 — the
example documented at `vtkAxisActor2D.h:249-252`. -/
theorem computeRange_example :
    ComputeRange ((1 : ℚ) / 4, (967 : ℚ) / 10) 10 = ((0, 100), 11, 10) := by
  decide

/-- Claim C10: `RenderTranslucentGeometry` returns 0 for every viewport and
leaves all state unchanged (`vtkAxisActor2D.h:236`, `{return 0;}`). -/
theorem renderTranslucentGeometry_trivial (c : AxisConfig)
    (cache : Option BuildCache) (v : Viewport) :
    RenderTranslucentGeometry c cache v = (0, c, cache) := rfl

/-- Claim C6: every configuration setter clamps silently to its documented
bound (`NumberOfLabels` to `[2,25]`, `TickLength`/`TickOffset` to `[0,100]`,
`FontFactor`/`LabelFactor` to `[0.1,2.0]`); the stored field after any
setter call is within its bound. -/
theorem setters_clamp (c : AxisConfig) (vn vt vo : ℤ) (vf vl : ℚ) :
    (2 ≤ (SetNumberOfLabels c vn).NumberOfLabels ∧
      (SetNumberOfLabels c vn).NumberOfLabels ≤ 25) ∧
    (0 ≤ (SetTickLength c vt).TickLength ∧ (SetTickLength c vt).TickLength ≤ 100) ∧
    (0 ≤ (SetTickOffset c vo).TickOffset ∧ (SetTickOffset c vo).TickOffset ≤ 100) ∧
    (1 / 10 ≤ (SetFontFactor c vf).FontFactor ∧ (SetFontFactor c vf).FontFactor ≤ 2) ∧
    (1 / 10 ≤ (SetLabelFactor c vl).LabelFactor ∧ (SetLabelFactor c vl).LabelFactor ≤ 2) :=
  ⟨⟨clampZ_lower _ (by norm_num), clampZ_upper _ (by norm_num)⟩,
   ⟨clampZ_lower _ (by norm_num), clampZ_upper _ (by norm_num)⟩,
   ⟨clampZ_lower _ (by norm_num), clampZ_upper _ (by norm_num)⟩,
   ⟨clampQ_lower _ (by norm_num), clampQ_upper _ (by norm_num)⟩,
   ⟨clampQ_lower _ (by norm_num), clampQ_upper _ (by norm_num)⟩⟩

/-- The font-size search either finds a size satisfying the predicate or
falls back to the floor. -/
theorem fontSearch_fits_or_floor (P : ℕ → Prop) [DecidablePred P] :
    P (fontSearch P) ∨ fontSearch P = minFontSize := by
  by_cases h : Nat.findGreatest (fun s => minFontSize ≤ s ∧ P s) maxFontSize = 0
  · right; rw [fontSearch, h]; exact max_eq_left (Nat.zero_le _)
  · left
    have hpos := @Nat.findGreatest_pos maxFontSize (fun s => minFontSize ≤ s ∧ P s) _
    obtain ⟨m, hm0, hmle, hPm⟩ := hpos.1 (Nat.pos_of_ne_zero h)
    have hPm2 : (fun s => minFontSize ≤ s ∧ P s) m := hPm
    have hspec :=
      @Nat.findGreatest_spec m (fun s => minFontSize ≤ s ∧ P s) _ maxFontSize hmle hPm2
    have heq : fontSearch P =
        Nat.findGreatest (fun s => minFontSize ≤ s ∧ P s) maxFontSize := by
      rw [fontSearch]; exact max_eq_right hspec.1
    rw [heq]; exact hspec.2

/-- Every divisor (and inverted quantity) occurring in the evaluation of
`ComputeRange r n` is nonzero: the raw-interval divisor `n - 1`, the
power-of-ten magnitude, the nice interval dividing the expansion and the
tick recomputation, the clamped-count divisor `outTicks - 1`, and the raw
interval itself (inverted inside `log10floor` when below one). -/
def ComputeRangeDivisorsNonzero (r : ℚ × ℚ) (n : ℤ) : Prop :=
  ((n : ℚ) - 1 ≠ 0) ∧
  pow10 (log10floor (crSpan r / ((n : ℚ) - 1))) ≠ 0 ∧
  crInterval r n ≠ 0 ∧
  ((crTicks r n : ℚ) - 1 ≠ 0) ∧
  crSpan r / ((n : ℚ) - 1) ≠ 0

theorem crTicksQ_sub_one_ne (r : ℚ × ℚ) (n : ℤ) : ((crTicks r n : ℚ)) - 1 ≠ 0 := by
  have h2 := crTicks_lower r n
  have : (2 : ℚ) ≤ (crTicks r n : ℚ) := by exact_mod_cast h2
  intro hc; rw [sub_eq_zero] at hc; rw [hc] at this; norm_num at this

theorem crOutSpan_pos {r : ℚ × ℚ} (n : ℤ) (h : 0 < crSpan r) :
    0 < crOutMax r n - crOutMin r n := by
  have h1 := crOutMin_le r n
  have h2 := le_crOutMax r n
  linarith

theorem computeRange_interval_pos {r : ℚ × ℚ} (n : ℤ) (h : 0 < crSpan r) :
    0 < (ComputeRange r n).2.2 := by
  rw [ComputeRange]
  by_cases hb : crTicks r n = crTicks0 r n
  · rw [if_pos hb]; exact crInterval_pos r n
  · rw [if_neg hb]
    have hs := crOutSpan_pos n h
    have ht : (0 : ℚ) < (crTicks r n : ℚ) - 1 := by
      have h2 := crTicks_lower r n
      have : (2 : ℚ) ≤ (crTicks r n : ℚ) := by exact_mod_cast h2
      linarith
    positivity

/-- Claim C4: for every requested tick count `n ≥ 2` (any valid requested
count; `NumberOfLabels` is clamped to `[2,25]` before reaching this call),
`ComputeRange` on the degenerate input range `(5,5)` returns an interval
strictly greater than 0, and every division performed along the way has a
nonzero divisor — the epsilon substitution of `crSpan` makes the span `5`
before the algorithm runs. -/
theorem computeRange_degenerate_safe (n : ℤ) (hn : 2 ≤ n) :
    0 < (ComputeRange ((5 : ℚ), (5 : ℚ)) n).2.2 ∧
    ComputeRangeDivisorsNonzero ((5 : ℚ), (5 : ℚ)) n := by
  have hden : ((n : ℚ)) - 1 ≠ 0 := by
    have : (2 : ℚ) ≤ (n : ℚ) := by exact_mod_cast hn
    intro hc; rw [sub_eq_zero] at hc; rw [hc] at this; norm_num at this
  have hspan : (0 : ℚ) < crSpan ((5 : ℚ), (5 : ℚ)) := by decide
  refine ⟨computeRange_interval_pos n hspan, hden, (pow10_pos _).ne', ?_, ?_, ?_⟩
  · exact (crInterval_pos _ n).ne'
  · exact crTicksQ_sub_one_ne _ n
  · exact div_ne_zero hspan.ne' hden

/-- Witness for C4 at `n = 7`. -/
theorem computeRange_degenerate_safe_witness :
    (2 : ℤ) ≤ 7 ∧
    (0 < (ComputeRange ((5 : ℚ), (5 : ℚ)) 7).2.2 ∧
      ComputeRangeDivisorsNonzero ((5 : ℚ), (5 : ℚ)) 7) :=
  ⟨by decide, computeRange_degenerate_safe 7 (by decide)⟩

/-- Claim C3: for every measurer and target box, the size returned by
`SetFontSize` yields a measured box fitting the factor-scaled target box in
both dimensions, or else the returned size is the minimum floor (overflow at
the floor accepted; the function is total, no error is signaled). -/
theorem setFontSize_fits_or_floor (measure : ℕ → ℕ × ℕ) (targetSize : ℕ × ℕ)
    (factor : ℚ) :
    FitsBox measure targetSize factor (SetFontSize measure targetSize factor).1 ∨
    (SetFontSize measure targetSize factor).1 = minFontSize :=
  fontSearch_fits_or_floor (FitsBox measure targetSize factor)

theorem SetFontSize_fst (measure : ℕ → ℕ × ℕ) (targetSize : ℕ × ℕ) (factor : ℚ) :
    (SetFontSize measure targetSize factor).1 =
      fontSearch (FitsBox measure targetSize factor) := rfl

theorem SetMultipleFontSize_fst (items : List ((ℕ → ℕ × ℕ) × (ℕ × ℕ))) (factor : ℚ) :
    (SetMultipleFontSize items factor).1 = fontSearch (FitsAll items factor) := rfl

/-- A monotone measurer makes the fitting predicate downward closed. -/
theorem FitsBox_downward {measure : ℕ → ℕ × ℕ} {target : ℕ × ℕ} {factor : ℚ}
    (hm : MonotoneMeasure measure) {s t : ℕ} (hst : s ≤ t)
    (h : FitsBox measure target factor t) : FitsBox measure target factor s := by
  obtain ⟨h1, h2⟩ := h
  obtain ⟨hw, hh⟩ := hm s t hst
  exact ⟨le_trans (by exact_mod_cast hw) h1, le_trans (by exact_mod_cast hh) h2⟩

theorem le_foldrMin {l : List ℕ} {b c : ℕ} (hb : c ≤ b) (hl : ∀ x ∈ l, c ≤ x) :
    c ≤ l.foldr min b := by
  induction l with
  | nil => exact hb
  | cons a t ih =>
    exact le_min (hl a (List.mem_cons_self a t))
      (ih fun x hx => hl x (List.mem_cons_of_mem a hx))

theorem foldrMin_le_mem {l : List ℕ} {b x : ℕ} (hx : x ∈ l) : l.foldr min b ≤ x := by
  induction l with
  | nil => cases hx
  | cons a t ih =>
    rcases List.mem_cons.1 hx with h | h
    · rw [h]; exact min_le_left _ _
    · exact le_trans (min_le_right _ _) (ih h)

theorem foldrMin_le_base {l : List ℕ} {b : ℕ} : l.foldr min b ≤ b := by
  induction l with
  | nil => exact le_refl b
  | cons a t ih => exact le_trans (min_le_right _ _) ih

/-- When the floor size satisfies the predicate, the font-size search
returns a value in `[minFontSize, maxFontSize]` satisfying the predicate,
maximal among satisfying sizes within the ceiling. -/
theorem fontSearch_feasible_spec (P : ℕ → Prop) [DecidablePred P]
    (hP : P minFontSize) :
    minFontSize ≤ fontSearch P ∧ P (fontSearch P) ∧ fontSearch P ≤ maxFontSize ∧
    ∀ s, s ≤ maxFontSize → P s → s ≤ fontSearch P := by
  have hQ1 : (fun s => minFontSize ≤ s ∧ P s) minFontSize := ⟨le_refl _, hP⟩
  have h1le : minFontSize ≤ maxFontSize := by decide
  have hg1 :=
    @Nat.le_findGreatest minFontSize (fun s => minFontSize ≤ s ∧ P s) _ maxFontSize h1le hQ1
  have heq : fontSearch P =
      Nat.findGreatest (fun s => minFontSize ≤ s ∧ P s) maxFontSize := by
    rw [fontSearch]; exact max_eq_right hg1
  have hspec :=
    @Nat.findGreatest_spec minFontSize (fun s => minFontSize ≤ s ∧ P s) _ maxFontSize h1le hQ1
  refine ⟨heq ▸ hspec.1, heq ▸ hspec.2, heq ▸ Nat.findGreatest_le _, ?_⟩
  intro s hs100 hPs
  rcases Nat.lt_or_ge s minFontSize with hs | hs
  · exact le_of_lt (lt_of_lt_of_le hs (heq ▸ hspec.1))
  · exact heq ▸ @Nat.le_findGreatest s (fun u => minFontSize ≤ u ∧ P u) _ maxFontSize hs100 ⟨hs, hPs⟩

/-- Claim C7: under the spec's measurer-monotonicity assumption and with
every string fitting its own box at the floor size, the batch fitter
returns one shared size at which every string fits its own factor-scaled
box, and that size equals the pointwise minimum over the strings of the
individually fitted sizes. -/
theorem setMultipleFontSize_batch (items : List ((ℕ → ℕ × ℕ) × (ℕ × ℕ)))
    (factor : ℚ)
    (hmono : ∀ it ∈ items, MonotoneMeasure it.1)
    (hfeas : ∀ it ∈ items, FitsBox it.1 it.2 factor minFontSize) :
    FitsAll items factor (SetMultipleFontSize items factor).1 ∧
    (SetMultipleFontSize items factor).1 =
      (items.map fun it => (SetFontSize it.1 it.2 factor).1).foldr min maxFontSize := by
  obtain ⟨hB1, hBfits, hB100, hBmax⟩ :=
    fontSearch_feasible_spec (FitsAll items factor) (fun it hit => hfeas it hit)
  have hsingle : ∀ it ∈ items,
      minFontSize ≤ fontSearch (FitsBox it.1 it.2 factor) ∧
      FitsBox it.1 it.2 factor (fontSearch (FitsBox it.1 it.2 factor)) ∧
      fontSearch (FitsBox it.1 it.2 factor) ≤ maxFontSize ∧
      ∀ s, s ≤ maxFontSize → FitsBox it.1 it.2 factor s →
        s ≤ fontSearch (FitsBox it.1 it.2 factor) :=
    fun it hit => fontSearch_feasible_spec _ (hfeas it hit)
  rw [SetMultipleFontSize_fst]
  constructor
  · exact hBfits
  · have hBleM : fontSearch (FitsAll items factor) ≤
        (items.map fun it => (SetFontSize it.1 it.2 factor).1).foldr min maxFontSize := by
      refine le_foldrMin hB100 ?_
      intro x hx
      obtain ⟨it, hit, rfl⟩ := List.mem_map.1 hx
      rw [SetFontSize_fst]
      exact (hsingle it hit).2.2.2 _ hB100 (hBfits it hit)
    have hMfits : FitsAll items factor
        ((items.map fun it => (SetFontSize it.1 it.2 factor).1).foldr min maxFontSize) := by
      intro it hit
      have hx : (SetFontSize it.1 it.2 factor).1 ∈
          items.map fun it => (SetFontSize it.1 it.2 factor).1 :=
        List.mem_map_of_mem _ hit
      have hMle := foldrMin_le_mem (b := maxFontSize) hx
      rw [SetFontSize_fst] at hMle
      exact FitsBox_downward (hmono it hit) hMle (hsingle it hit).2.1
    have hMleB := hBmax _ foldrMin_le_base hMfits
    exact le_antisymm hBleM hMleB

/-- Witness for C7: one string measured as `s ↦ (s, s)` against a `5×5` box
at factor 1; the shared size is the single fitted size. -/
theorem setMultipleFontSize_batch_witness :
    (∀ it ∈ [(fun s => (s, s), ((5 : ℕ), (5 : ℕ)))], MonotoneMeasure it.1) ∧
    (∀ it ∈ [(fun s => (s, s), ((5 : ℕ), (5 : ℕ)))],
      FitsBox it.1 it.2 1 minFontSize) ∧
    (FitsAll [(fun s => (s, s), ((5 : ℕ), (5 : ℕ)))] 1
      (SetMultipleFontSize [(fun s => (s, s), ((5 : ℕ), (5 : ℕ)))] 1).1 ∧
    (SetMultipleFontSize [(fun s => (s, s), ((5 : ℕ), (5 : ℕ)))] 1).1 =
      ([(fun s => (s, s), ((5 : ℕ), (5 : ℕ)))].map
        fun it => (SetFontSize it.1 it.2 1).1).foldr min maxFontSize) :=
  have hm : ∀ it ∈ [(fun s => (s, s), ((5 : ℕ), (5 : ℕ)))], MonotoneMeasure it.1 := by
    intro it hit
    rw [List.mem_singleton] at hit
    subst hit
    exact fun s t hst => ⟨hst, hst⟩
  have hf : ∀ it ∈ [(fun s => (s, s), ((5 : ℕ), (5 : ℕ)))],
      FitsBox it.1 it.2 1 minFontSize := by
    intro it hit
    rw [List.mem_singleton] at hit
    subst hit
    exact ⟨by norm_num [minFontSize], by norm_num [minFontSize]⟩
  ⟨hm, hf, setMultipleFontSize_batch _ 1 hm hf⟩

/-- Claim C9: each public accessor of the adjusted state calls
`UpdateAdjustedRange` before reading (inline bodies,
`vtkAxisActor2D.h:111-130`), so on any well-formed state the returned
values are exactly those determined by the current `Range`,
`NumberOfLabels` and `AdjustLabels` settings — never a stale cache. -/
theorem adjustedAccessors_fresh (s : AdjustState) (h : AdjustWellFormed s) :
    (GetAdjustedRange s).1 = (adjustedValuesOf s).1 ∧
    (GetAdjustedRangeRefs s).1 = (adjustedValuesOf s).1 ∧
    (GetAdjustedRangeArray s).1 = (adjustedValuesOf s).1 ∧
    (GetAdjustedNumberOfLabels s).1 = (adjustedValuesOf s).2 := by
  by_cases hlt : s.AdjustedRangeBuildTime < s.MTime
  · simp [GetAdjustedRange, GetAdjustedRangeRefs, GetAdjustedRangeArray,
      GetAdjustedNumberOfLabels, UpdateAdjustedRange, hlt]
  · have heq : s.AdjustedRangeBuildTime = s.MTime := le_antisymm h.1 (not_lt.1 hlt)
    obtain ⟨h1, h2⟩ := h.2 heq
    simp [GetAdjustedRange, GetAdjustedRangeRefs, GetAdjustedRangeArray,
      GetAdjustedNumberOfLabels, UpdateAdjustedRange, hlt, h1, h2]

/-- Witness for C9: a state whose cached adjusted values are stale junk
(`AdjustedRange = (2,3)` for `Range = (0,1)`, build time behind the
modification time); the accessors still report the current settings. -/
theorem adjustedAccessors_fresh_witness :
    AdjustWellFormed
      ⟨((0 : ℚ), (1 : ℚ)), 5, false, ((2 : ℚ), (3 : ℚ)), 4, 1, 0⟩ ∧
    ((GetAdjustedRange
        ⟨((0 : ℚ), (1 : ℚ)), 5, false, ((2 : ℚ), (3 : ℚ)), 4, 1, 0⟩).1 =
      (adjustedValuesOf
        ⟨((0 : ℚ), (1 : ℚ)), 5, false, ((2 : ℚ), (3 : ℚ)), 4, 1, 0⟩).1 ∧
    (GetAdjustedRangeRefs
        ⟨((0 : ℚ), (1 : ℚ)), 5, false, ((2 : ℚ), (3 : ℚ)), 4, 1, 0⟩).1 =
      (adjustedValuesOf
        ⟨((0 : ℚ), (1 : ℚ)), 5, false, ((2 : ℚ), (3 : ℚ)), 4, 1, 0⟩).1 ∧
    (GetAdjustedRangeArray
        ⟨((0 : ℚ), (1 : ℚ)), 5, false, ((2 : ℚ), (3 : ℚ)), 4, 1, 0⟩).1 =
      (adjustedValuesOf
        ⟨((0 : ℚ), (1 : ℚ)), 5, false, ((2 : ℚ), (3 : ℚ)), 4, 1, 0⟩).1 ∧
    (GetAdjustedNumberOfLabels
        ⟨((0 : ℚ), (1 : ℚ)), 5, false, ((2 : ℚ), (3 : ℚ)), 4, 1, 0⟩).1 =
      (adjustedValuesOf
        ⟨((0 : ℚ), (1 : ℚ)), 5, false, ((2 : ℚ), (3 : ℚ)), 4, 1, 0⟩).2) :=
  ⟨by decide, adjustedAccessors_fresh _ (by decide)⟩

/-- Equation lemma: a build with an empty cache takes the fresh path. -/
theorem buildAxis_none (c : AxisConfig) (v : Viewport) :
    BuildAxis c none v =
      (layoutOf c (v.toDevice c.Point1) (v.toDevice c.Point2) v.size v.measure,
       some ⟨v.toDevice c.Point1, v.toDevice c.Point2, v.size, c,
         layoutOf c (v.toDevice c.Point1) (v.toDevice c.Point2) v.size v.measure⟩,
       true) := rfl

/-- Equation lemma: a build with a populated cache compares the resolved
points, the viewport size and the content snapshot. -/
theorem buildAxis_some (c : AxisConfig) (b : BuildCache) (v : Viewport) :
    BuildAxis c (some b) v =
      if b.lastPoint1 = v.toDevice c.Point1 ∧ b.lastPoint2 = v.toDevice c.Point2 ∧
          b.lastSize = v.size ∧ b.content = c then
        (b.layout, some b, false)
      else
        (layoutOf c (v.toDevice c.Point1) (v.toDevice c.Point2) v.size v.measure,
         some ⟨v.toDevice c.Point1, v.toDevice c.Point2, v.size, c,
           layoutOf c (v.toDevice c.Point1) (v.toDevice c.Point2) v.size v.measure⟩,
         true) := rfl

/-- Claim C5: rebuilding with an identical configuration and identical
viewport yields the bit-identical layout, and the second call takes the
cache-hit path (`false` flag), so neither the range adjuster nor the font
fitters run again. -/
theorem buildAxis_idempotent_cached (c : AxisConfig) (cache : Option BuildCache)
    (v : Viewport) :
    (BuildAxis c (BuildAxis c cache v).2.1 v).1 = (BuildAxis c cache v).1 ∧
    (BuildAxis c (BuildAxis c cache v).2.1 v).2.2 = false := by
  cases cache with
  | none =>
    rw [buildAxis_none]
    rw [show ((layoutOf c (v.toDevice c.Point1) (v.toDevice c.Point2) v.size v.measure,
      some (⟨v.toDevice c.Point1, v.toDevice c.Point2, v.size, c,
        layoutOf c (v.toDevice c.Point1) (v.toDevice c.Point2) v.size v.measure⟩ :
          BuildCache), true) :
        LayoutResult × Option BuildCache × Bool).2.1 =
      some (⟨v.toDevice c.Point1, v.toDevice c.Point2, v.size, c,
        layoutOf c (v.toDevice c.Point1) (v.toDevice c.Point2) v.size v.measure⟩ :
          BuildCache) from rfl]
    rw [buildAxis_some, if_pos ⟨rfl, rfl, rfl, rfl⟩]
    exact ⟨rfl, rfl⟩
  | some b =>
    rw [buildAxis_some]
    by_cases h : b.lastPoint1 = v.toDevice c.Point1 ∧ b.lastPoint2 = v.toDevice c.Point2 ∧
        b.lastSize = v.size ∧ b.content = c
    · rw [if_pos h]
      rw [show ((b.layout, some b, false) :
          LayoutResult × Option BuildCache × Bool).2.1 = some b from rfl]
      rw [buildAxis_some, if_pos h]
      exact ⟨rfl, rfl⟩
    · rw [if_neg h]
      rw [buildAxis_some, if_pos ⟨rfl, rfl, rfl, rfl⟩]
      exact ⟨rfl, rfl⟩

/-- Claim C8: after a build, changing only `Title` leaves the tick and
label geometry of the next build's layout unchanged, while changing `Range`
or `Point1` invalidates the cache (the rebuild flag is set) and the whole
layout — ticks, labels and title — is regenerated fresh from the new
inputs. -/
theorem buildAxis_title_vs_content (c : AxisConfig) (v : Viewport)
    (newTitle : String) (newRange newPoint : ℚ × ℚ)
    (hR : newRange ≠ c.Range) (hq : newPoint ≠ c.Point1) :
    ((BuildAxis (SetTitle c newTitle) (BuildAxis c none v).2.1 v).1.ticks =
        (BuildAxis c none v).1.ticks ∧
      (BuildAxis (SetTitle c newTitle) (BuildAxis c none v).2.1 v).1.labels =
        (BuildAxis c none v).1.labels) ∧
    ((BuildAxis { c with Range := newRange } (BuildAxis c none v).2.1 v).2.2 = true ∧
      (BuildAxis { c with Range := newRange } (BuildAxis c none v).2.1 v).1 =
        layoutOf { c with Range := newRange } (v.toDevice c.Point1)
          (v.toDevice c.Point2) v.size v.measure) ∧
    ((BuildAxis { c with Point1 := newPoint } (BuildAxis c none v).2.1 v).2.2 = true ∧
      (BuildAxis { c with Point1 := newPoint } (BuildAxis c none v).2.1 v).1 =
        layoutOf { c with Point1 := newPoint } (v.toDevice newPoint)
          (v.toDevice c.Point2) v.size v.measure) := by
  rw [buildAxis_none]
  refine ⟨?_, ⟨?_, ?_⟩, ⟨?_, ?_⟩⟩
  · by_cases ht : newTitle = c.Title
    · have hc : SetTitle c newTitle = c := by rw [ht]; rfl
      rw [hc, buildAxis_some, if_pos ⟨rfl, rfl, rfl, rfl⟩]
      exact ⟨rfl, rfl⟩
    · rw [buildAxis_some,
        if_neg (fun hh => ht (congrArg AxisConfig.Title hh.2.2.2).symm)]
      exact ⟨rfl, rfl⟩
  · rw [buildAxis_some,
      if_neg (fun hh => hR (congrArg AxisConfig.Range hh.2.2.2).symm)]
  · rw [buildAxis_some,
      if_neg (fun hh => hR (congrArg AxisConfig.Range hh.2.2.2).symm)]
  · rw [buildAxis_some,
      if_neg (fun hh => hq (congrArg AxisConfig.Point1 hh.2.2.2).symm)]
  · rw [buildAxis_some,
      if_neg (fun hh => hq (congrArg AxisConfig.Point1 hh.2.2.2).symm)]

/-- A sample configuration (the end-to-end example of spec §8). -/
def sampleConfig : AxisConfig :=
  { Point1 := (10, 10)
    Point2 := (110, 10)
    Range := (0, 100)
    NumberOfLabels := 6
    LabelFormat := "%g"
    AdjustLabels := true
    FontFactor := 1
    LabelFactor := 1
    TickLength := 5
    TickOffset := 2
    AxisVisibility := true
    TickVisibility := true
    LabelVisibility := true
    TitleVisibility := true
    Title := "t" }

/-- A sample viewport: the identity-rounding transform on a `200×200`
canvas with a square text measurer. -/
def sampleViewport : Viewport :=
  { toDevice := fun p => (Rat.floor p.1, Rat.floor p.2)
    size := (200, 200)
    measure := fun _ s => (s, s) }

/-- Witness for C8 at the sample configuration: new title `"u"`, new range
`(0,50)`, new first point `(0,0)`. -/
theorem buildAxis_title_vs_content_witness :
    (((0 : ℚ), (50 : ℚ)) ≠ sampleConfig.Range ∧
      ((0 : ℚ), (0 : ℚ)) ≠ sampleConfig.Point1) ∧
    (((BuildAxis (SetTitle sampleConfig "u")
          (BuildAxis sampleConfig none sampleViewport).2.1 sampleViewport).1.ticks =
        (BuildAxis sampleConfig none sampleViewport).1.ticks ∧
      (BuildAxis (SetTitle sampleConfig "u")
          (BuildAxis sampleConfig none sampleViewport).2.1 sampleViewport).1.labels =
        (BuildAxis sampleConfig none sampleViewport).1.labels) ∧
    ((BuildAxis { sampleConfig with Range := ((0 : ℚ), (50 : ℚ)) }
          (BuildAxis sampleConfig none sampleViewport).2.1 sampleViewport).2.2 = true ∧
      (BuildAxis { sampleConfig with Range := ((0 : ℚ), (50 : ℚ)) }
          (BuildAxis sampleConfig none sampleViewport).2.1 sampleViewport).1 =
        layoutOf { sampleConfig with Range := ((0 : ℚ), (50 : ℚ)) }
          (sampleViewport.toDevice sampleConfig.Point1)
          (sampleViewport.toDevice sampleConfig.Point2)
          sampleViewport.size sampleViewport.measure) ∧
    ((BuildAxis { sampleConfig with Point1 := ((0 : ℚ), (0 : ℚ)) }
          (BuildAxis sampleConfig none sampleViewport).2.1 sampleViewport).2.2 = true ∧
      (BuildAxis { sampleConfig with Point1 := ((0 : ℚ), (0 : ℚ)) }
          (BuildAxis sampleConfig none sampleViewport).2.1 sampleViewport).1 =
        layoutOf { sampleConfig with Point1 := ((0 : ℚ), (0 : ℚ)) }
          (sampleViewport.toDevice ((0 : ℚ), (0 : ℚ)))
          (sampleViewport.toDevice sampleConfig.Point2)
          sampleViewport.size sampleViewport.measure)) :=
  ⟨⟨by decide, by decide⟩,
    buildAxis_title_vs_content sampleConfig sampleViewport "u"
      ((0 : ℚ), (50 : ℚ)) ((0 : ℚ), (0 : ℚ)) (by decide) (by decide)⟩

end VtkAxisActor2D
